import Mathlib

set_option autoImplicit false

/-!
Verification of the age-calculation engine of `calculate_age`
(src/src/core/services, src/src/domain, src/src/config).

Modelling conventions:
* Python `int` is `Int`; Python `%` on a positive modulus is `Int.emod`
  (written `%`), and Python `//` (floor division) is `Int.fdiv`.
* Python strings are `List Char`; `str.strip()` being non-empty is
  `stripNonempty` over an ASCII whitespace set.
* Python functions that can raise become `Except`-valued functions.
* Frozen dataclasses whose `__post_init__` raises on a bad value become
  structures carrying the invariant as a proof field, with an `Except`-valued
  smart constructor standing for the dataclass constructor.
* `AgeCalculationResult.id` (a uuid) and `calculation_timestamp` (wall clock)
  are environment-dependent and not part of any numeric-field contract, so
  they are omitted from the embedded record.
-/

namespace AgeCalc

/-- ASCII whitespace, the characters stripped by Python `str.strip()`
(space, tab, newline, vertical tab, form feed, carriage return). -/
def isPySpace (c : Char) : Bool :=
  c = ' ' || c = Char.ofNat 9 || c = Char.ofNat 10 || c = Char.ofNat 11 ||
  c = Char.ofNat 12 || c = Char.ofNat 13

/-- Truthiness of `s.strip()` for a Python string `s`: some character is not whitespace. -/
def stripNonempty (s : List Char) : Bool :=
  s.any (fun c => !(isPySpace c))

/-- The `PersonName` value object (src/src/domain/value_objects). Its frozen-dataclass
`__post_init__` raises unless the value is non-empty after stripping, so every
constructed value carries that invariant. -/
structure PersonName where
  value : List Char
  valid : stripNonempty value = true

/-- Constructor `PersonName(value)`: raises `ValueError` when the value is empty or
whitespace-only (`not self.value or not self.value.strip()`; an empty string
also fails `stripNonempty`, so the two disjuncts collapse). -/
def mkPersonName (value : List Char) : Except String PersonName :=
  if h : stripNonempty value = true then .ok ⟨value, h⟩
  else .error "Name cannot be empty"

/-- The `Age` value object (src/src/domain/value_objects). `__post_init__` raises when
`years < 0`, so every constructed value is non-negative. -/
structure Age where
  years : Int
  valid : 0 ≤ years

/-- Constructor `Age(years)`: raises `ValueError` when `years < 0`. -/
def mkAge (years : Int) : Except String Age :=
  if h : years < 0 then .error "Age cannot be negative"
  else .ok ⟨years, by omega⟩

/-- The `AgeInMonths` value object: a plain wrapper, no validation. -/
structure AgeInMonths where
  months : Int

/-- The `AgeInDays` value object: a plain wrapper, no validation. -/
structure AgeInDays where
  days : Int

/-- The `AgeInWeeks` value object: a plain wrapper, no validation. -/
structure AgeInWeeks where
  weeks : Int

/-- The `AgeInHours` value object: a plain wrapper, no validation. -/
structure AgeInHours where
  hours : Int

/-- The `AgeInMinutes` value object: a plain wrapper, no validation. -/
structure AgeInMinutes where
  minutes : Int

/-- Python `calendar.isleap(year)` as used by `StandardLeapYearCalculator.is_leap_year`:
`year % 4 == 0 and (year % 100 != 0 or year % 400 == 0)`. Python `%` on a
positive modulus agrees with `Int.emod`, the `%` used here. -/
def is_leap_year (year : Int) : Bool :=
  year % 4 == 0 && (!(year % 100 == 0) || year % 400 == 0)

/-- Embeds `StandardLeapYearCalculator.get_days_in_year`. -/
def get_days_in_year (year : Int) : Int :=
  if is_leap_year year then 366 else 365

/-- The `DAYS_IN_MONTH` / `DAYS_IN_MONTH_LEAP` dictionaries of
`StandardMonthDaysCalculator`, as one lookup keyed on the leap flag. The
dictionaries hold exactly the keys 1..12; behind the range guard the lookup
never misses, so the out-of-range branch (value 0) is unreachable in the
embedded functions below. -/
def monthTable (month : Int) (is_leap : Bool) : Int :=
  if month = 1 then 31
  else if month = 2 then (if is_leap then 29 else 28)
  else if month = 3 then 31
  else if month = 4 then 30
  else if month = 5 then 31
  else if month = 6 then 30
  else if month = 7 then 31
  else if month = 8 then 31
  else if month = 9 then 30
  else if month = 10 then 31
  else if month = 11 then 30
  else if month = 12 then 31
  else 0

/-- Embeds `StandardMonthDaysCalculator.get_days_in_month`: raises `ValueError` when
the month lies outside [1, 12], otherwise looks the month up in the table for
the given leap flag. -/
def get_days_in_month (month : Int) (is_leap : Bool) : Except String Int :=
  if month < 1 || month > 12 then .error "Invalid month"
  else .ok (monthTable month is_leap)

/-- Embeds `StandardMonthDaysCalculator.get_days_up_to_month`: raises `ValueError`
when the month lies outside [1, 12], otherwise sums `get_days_in_month` over
`range(1, month)`; behind the guard every summand is in range, so the loop
reduces to summing the table. -/
def get_days_up_to_month (month : Int) (is_leap : Bool) : Except String Int :=
  if month < 1 || month > 12 then .error "Invalid month"
  else .ok (((List.range (month - 1).toNat).map
    (fun i => monthTable ((i : Int) + 1) is_leap)).sum)

/-- The `ValidationConfig` record (src/src/config/application_config.py) with its field
defaults. The default allowed-character set is the ASCII letters, space,
hyphen and apostrophe (character 39). -/
structure ValidationConfig where
  min_age : Int := 0
  max_age : Int := 150
  min_name_length : Int := 1
  max_name_length : Int := 100
  allowed_name_characters : List Char :=
    "abcdefghijklmnopqrstuvwxyzABCDEFGHIJKLMNOPQRSTUVWXYZ -".toList ++ [Char.ofNat 39]
  strict_name_validation : Bool := false

/-- The configuration obtained from `ValidationConfig()` with no overrides. -/
def defaultValidationConfig : ValidationConfig := {}

/-- A configuration whose age range is ordered (min -5 at most max 150) but
admits negative ages. -/
def negMinConfig : ValidationConfig := { min_age := -5 }

/-- Embeds `InputValidationService.validate_name`. -/
def validate_name (cfg : ValidationConfig) (name : List Char) : Bool :=
  if name.isEmpty || !(stripNonempty name) then false
  else if (name.length : Int) < cfg.min_name_length then false
  else if (name.length : Int) > cfg.max_name_length then false
  else if cfg.strict_name_validation then
    name.all (fun c => cfg.allowed_name_characters.contains c)
  else true

/-- Embeds `InputValidationService.validate_age`. -/
def validate_age (cfg : ValidationConfig) (age : Int) : Bool :=
  decide (cfg.min_age ≤ age) && decide (age ≤ cfg.max_age)

/-- Reason recorded on a `NameValidationException`. -/
inductive NameReason where
  | empty_value
  | too_short
  | too_long
deriving DecidableEq

/-- The `NameValidationException` payload: the offending value and the reason. -/
structure NameValidationError where
  name_value : List Char
  reason : NameReason

/-- The `AgeValidationException` payload: the offending value and the configured
bounds. -/
structure AgeValidationError where
  age_value : Int
  min_age : Int
  max_age : Int

/-- Embeds `InputValidationService.validate_name_with_exception`. -/
def validate_name_with_exception (cfg : ValidationConfig) (name : List Char) :
    Except NameValidationError Unit :=
  if name.isEmpty || !(stripNonempty name) then .error ⟨name, .empty_value⟩
  else if (name.length : Int) < cfg.min_name_length then .error ⟨name, .too_short⟩
  else if (name.length : Int) > cfg.max_name_length then .error ⟨name, .too_long⟩
  else .ok ()

/-- Embeds `InputValidationService.validate_age_with_exception`. -/
def validate_age_with_exception (cfg : ValidationConfig) (age : Int) :
    Except AgeValidationError Unit :=
  if age < cfg.min_age || age > cfg.max_age then
    .error ⟨age, cfg.min_age, cfg.max_age⟩
  else .ok ()

/-- The exceptions that can escape `AgeCalculatorServiceImpl.calculate_age`:
the two validation exceptions, and `ValueError` (from the month table or a
value-object constructor). -/
inductive CalcError where
  | nameError : NameValidationError → CalcError
  | ageError : AgeValidationError → CalcError
  | valueError : String → CalcError

/-- The `AgeCalculationResult` entity (src/src/domain/entities), numeric and name fields.
Every field defaults to `None` in the dataclass. -/
structure AgeCalculationResult where
  name : Option PersonName := none
  age_years : Option Age := none
  age_months : Option AgeInMonths := none
  age_days : Option AgeInDays := none
  age_weeks : Option AgeInWeeks := none
  age_hours : Option AgeInHours := none
  age_minutes : Option AgeInMinutes := none
  birth_year : Option Int := none
  current_year : Option Int := none

/-- The year loop of `_calculate_total_days`:
`for year in range(birth_year, current_year): total += get_days_in_year(year)`,
where `count` is the number of iterations. -/
def yearLoopSum (birth_year : Int) (count : Nat) : Int :=
  ((List.range count).map (fun (i : Nat) => get_days_in_year (birth_year + (i : Int)))).sum

/-- The month loop of `_calculate_total_days`:
`for month in range(1, current_month): total += get_days_in_month(month, leap)`;
`get_days_in_month` raises if an iterated month is out of range (reachable only
when `current_month > 13`). -/
def monthLoopSum (current_month : Int) (is_leap : Bool) : Except String Int :=
  (List.range (current_month - 1).toNat).foldlM
    (fun acc i => do
      let d ← get_days_in_month ((i : Int) + 1) is_leap
      pure (acc + d))
    0

/-- Embeds `AgeCalculatorServiceImpl._calculate_total_days`. -/
def calculate_total_days (age_years current_year current_month current_day : Int) :
    Except String Int := do
  let birth_year := current_year - age_years
  let yearDays := yearLoopSum birth_year (current_year - birth_year).toNat
  let monthDays ← monthLoopSum current_month (is_leap_year current_year)
  pure (yearDays + monthDays + current_day)

/-- Lifts a `ValueError` into the engine error type. -/
def liftVE {α : Type} (e : Except String α) : Except CalcError α :=
  e.mapError CalcError.valueError

/-- Embeds `AgeCalculatorServiceImpl.calculate_age`, with the date-source collaborator
made explicit as the `(current_year, current_month, current_day)` arguments.
Validation runs first; the derived units and the value objects are then built
exactly as in the source. -/
def calculate_age (cfg : ValidationConfig) (name : List Char) (age_years : Int)
    (current_year current_month current_day : Int) :
    Except CalcError AgeCalculationResult := do
  match validate_name_with_exception cfg name with
  | .error e => throw (.nameError e)
  | .ok _ => pure ()
  match validate_age_with_exception cfg age_years with
  | .error e => throw (.ageError e)
  | .ok _ => pure ()
  let total_days ← liftVE
    (calculate_total_days age_years current_year current_month current_day)
  let total_months := age_years * 12 + current_month
  let total_weeks := Int.fdiv total_days 7
  let total_hours := total_days * 24
  let total_minutes := total_hours * 60
  let birth_year := current_year - age_years
  let pn ← liftVE (mkPersonName name)
  let ag ← liftVE (mkAge age_years)
  pure {
    name := some pn
    age_years := some ag
    age_months := some ⟨total_months⟩
    age_days := some ⟨total_days⟩
    age_weeks := some ⟨total_weeks⟩
    age_hours := some ⟨total_hours⟩
    age_minutes := some ⟨total_minutes⟩
    birth_year := some birth_year
    current_year := some current_year
  }

/-- Embeds `AgeCalculatorServiceImpl.calculate_days_lived`, date source explicit. -/
def calculate_days_lived (age_years current_year current_month current_day : Int) :
    Except String Int :=
  calculate_total_days age_years current_year current_month current_day

/-- Embeds `AgeCalculatorServiceImpl.calculate_months_lived`, date source explicit. -/
def calculate_months_lived (age_years current_month : Int) : Int :=
  age_years * 12 + current_month

/-- The flat key/value structure produced by `AgeCalculationResult.to_dict`
(numeric and name fields; `id` and the timestamp string are omitted, see the
module docstring). -/
structure AgeResultDict where
  name : Option (List Char)
  age_years : Option Int
  age_months : Option Int
  age_days : Option Int
  age_weeks : Option Int
  age_hours : Option Int
  age_minutes : Option Int
  birth_year : Option Int
  current_year : Option Int

/-- Embeds `AgeCalculationResult.to_dict`: each field serializes to its raw value
when present and to `None` otherwise (the objects are always truthy, so the
Python conditionals are exactly presence tests). -/
def to_dict (r : AgeCalculationResult) : AgeResultDict where
  name := r.name.map (fun p => p.value)
  age_years := r.age_years.map (fun a => a.years)
  age_months := r.age_months.map (fun a => a.months)
  age_days := r.age_days.map (fun a => a.days)
  age_weeks := r.age_weeks.map (fun a => a.weeks)
  age_hours := r.age_hours.map (fun a => a.hours)
  age_minutes := r.age_minutes.map (fun a => a.minutes)
  birth_year := r.birth_year
  current_year := r.current_year

/-- Python truthiness of `data.get(key)` for a string value: present and
non-empty. -/
def truthyStr : Option (List Char) → Bool
  | none => false
  | some s => !s.isEmpty

/-- Python truthiness of `data.get(key)` for an integer value: present and
non-zero. -/
def truthyInt : Option Int → Bool
  | none => false
  | some n => n != 0

/-- Embeds `FileBasedCalculationRepository._dict_to_result`: each wrapped field is
rebuilt only when `data.get(key)` is truthy (`PersonName(...) if
data.get(name) else None`, and likewise for the numeric value objects);
`birth_year` and `current_year` are taken with a plain `.get`. Rebuilding
`PersonName` or `Age` can itself raise. -/
def dict_to_result (d : AgeResultDict) : Except String AgeCalculationResult := do
  let nm ← if truthyStr d.name then (mkPersonName (d.name.getD [])).map some
    else pure none
  let ay ← if truthyInt d.age_years then (mkAge (d.age_years.getD 0)).map some
    else pure none
  let am := if truthyInt d.age_months then some (⟨d.age_months.getD 0⟩ : AgeInMonths)
    else none
  let ad := if truthyInt d.age_days then some (⟨d.age_days.getD 0⟩ : AgeInDays)
    else none
  let aw := if truthyInt d.age_weeks then some (⟨d.age_weeks.getD 0⟩ : AgeInWeeks)
    else none
  let ah := if truthyInt d.age_hours then some (⟨d.age_hours.getD 0⟩ : AgeInHours)
    else none
  let amin := if truthyInt d.age_minutes then some (⟨d.age_minutes.getD 0⟩ : AgeInMinutes)
    else none
  pure {
    name := nm
    age_years := ay
    age_months := am
    age_days := ad
    age_weeks := aw
    age_hours := ah
    age_minutes := amin
    birth_year := d.birth_year
    current_year := d.current_year
  }

/-- The `CalculationRequest` entity (src/src/domain/entities), the fields its own
`validate` reads, with the dataclass defaults. -/
structure CalculationRequest where
  name : List Char := []
  age_in_years : Int := 0

/-- Embeds `CalculationRequest.validate`: `bool(self.name) and self.age_in_years >= 0`.
Note `bool(name)` is plain non-emptiness, with no stripping. -/
def CalculationRequest.validate (r : CalculationRequest) : Bool :=
  !r.name.isEmpty && decide (0 ≤ r.age_in_years)

/-- Spec-side closed-interval sum of `get_days_in_year` over years
`lo..hi` inclusive. -/
def specYearSpan (lo hi : Int) : Int :=
  Finset.sum (Finset.Icc lo hi) (fun y => get_days_in_year y)

/-- Spec-side cumulative days before a month: the sum of the table entries of
months `1..month-1`. -/
def specMonthPrefix (month : Int) (is_leap : Bool) : Int :=
  Finset.sum (Finset.Icc 1 (month - 1)) (fun k => monthTable k is_leap)

/-- Spec-side total day count: full years from `birth_year = y - a` through
`y - 1`, plus the cumulative days before month `m` under the leap flag of the
current year `y`, plus the day of month `d`. -/
def specTotalDays (a y m d : Int) : Int :=
  specYearSpan (y - a) (y - 1) + specMonthPrefix m (is_leap_year y) + d

/-- Tests whether an `Except` value is an error. -/
def isError {ε α : Type} : Except ε α → Bool
  | .error _ => true
  | .ok _ => false

theorem except_bind_ok {ε α β : Type} (a : α) (f : α → Except ε β) :
    (Except.ok a >>= f : Except ε β) = f a := rfl

theorem except_bind_err {ε α β : Type} (e : ε) (f : α → Except ε β) :
    (Except.error e >>= f : Except ε β) = Except.error e := rfl

theorem get_days_in_year_ge (y : Int) : 365 ≤ get_days_in_year y := by
  unfold get_days_in_year; split <;> omega

set_option maxHeartbeats 1000000 in
theorem monthTable_nonneg (m : Int) (leap : Bool) : 0 ≤ monthTable m leap := by
  unfold monthTable
  repeat' split
  all_goals omega

theorem Icc_int_cons (lo hi : Int) (h : lo ≤ hi) :
    Finset.Icc lo hi = insert lo (Finset.Icc (lo + 1) hi) := by
  ext x
  simp only [Finset.mem_Icc, Finset.mem_insert]
  omega

theorem Icc_int_snoc (lo hi : Int) (h : lo ≤ hi) :
    Finset.Icc lo hi = insert hi (Finset.Icc lo (hi - 1)) := by
  ext x
  simp only [Finset.mem_Icc, Finset.mem_insert]
  omega

theorem specYearSpan_cons (lo hi : Int) (h : lo ≤ hi) :
    specYearSpan lo hi = get_days_in_year lo + specYearSpan (lo + 1) hi := by
  unfold specYearSpan
  rw [Icc_int_cons lo hi h, Finset.sum_insert]
  simp only [Finset.mem_Icc]
  omega

theorem specYearSpan_snoc (lo hi : Int) (h : lo ≤ hi) :
    specYearSpan lo hi = specYearSpan lo (hi - 1) + get_days_in_year hi := by
  unfold specYearSpan
  rw [Icc_int_snoc lo hi h, Finset.sum_insert]
  · omega
  · simp only [Finset.mem_Icc]
    omega

theorem specYearSpan_nonneg (lo hi : Int) : 0 ≤ specYearSpan lo hi := by
  unfold specYearSpan
  apply Finset.sum_nonneg
  intro y _
  have := get_days_in_year_ge y
  omega

theorem specYearSpan_ge (lo hi : Int) (h : lo ≤ hi) : 365 ≤ specYearSpan lo hi := by
  rw [specYearSpan_cons lo hi h]
  have h1 := get_days_in_year_ge lo
  have h2 := specYearSpan_nonneg (lo + 1) hi
  omega

theorem specMonthPrefix_nonneg (m : Int) (leap : Bool) : 0 ≤ specMonthPrefix m leap := by
  unfold specMonthPrefix
  apply Finset.sum_nonneg
  intro k _
  exact monthTable_nonneg k leap

theorem yearLoopSum_eq_span (lo : Int) (n : Nat) :
    yearLoopSum lo n = specYearSpan lo (lo + n - 1) := by
  induction n with
  | zero =>
      unfold yearLoopSum specYearSpan
      rw [Finset.Icc_eq_empty (by omega)]
      simp
  | succ k ih =>
      unfold yearLoopSum at ih ⊢
      rw [List.range_succ, List.map_append, List.sum_append]
      rw [ih]
      have hle : lo ≤ lo + (k + 1 : Nat) - 1 := by
        push_cast
        omega
      rw [specYearSpan_snoc lo (lo + (k + 1 : Nat) - 1) hle]
      have h1 : (lo + (k + 1 : Nat) - 1 : Int) - 1 = lo + (k : Nat) - 1 := by
        push_cast
        omega
      have h2 : (lo + (k + 1 : Nat) - 1 : Int) = lo + (k : Nat) := by
        push_cast
        omega
      rw [h1, h2]
      simp

theorem monthLoopSum_ok (m : Int) (leap : Bool) (h1 : 1 ≤ m) (h2 : m ≤ 12) :
    monthLoopSum m leap = .ok (specMonthPrefix m leap) := by
  interval_cases m <;> cases leap <;> rfl

theorem calculate_total_days_ok (a y m d : Int) (ha : 0 ≤ a)
    (hm1 : 1 ≤ m) (hm2 : m ≤ 12) :
    calculate_total_days a y m d = .ok (specTotalDays a y m d) := by
  simp only [calculate_total_days, specTotalDays]
  rw [monthLoopSum_ok m (is_leap_year y) hm1 hm2]
  have hcount : (y - (y - a)).toNat = a.toNat := by omega
  rw [hcount, yearLoopSum_eq_span]
  have hspan : (y - a) + (a.toNat : Int) - 1 = y - 1 := by omega
  rw [hspan]
  rfl

end AgeCalc
namespace AgeCalc

theorem validate_name_ok_strip {cfg : ValidationConfig} {name : List Char}
    (h : validate_name_with_exception cfg name = .ok ()) :
    stripNonempty name = true := by
  by_contra hs
  simp only [validate_name_with_exception, hs] at h
  simp at h

theorem validate_age_ok_bounds {cfg : ValidationConfig} {a : Int}
    (h : validate_age_with_exception cfg a = .ok ()) :
    cfg.min_age ≤ a ∧ a ≤ cfg.max_age := by
  by_contra hb
  simp only [validate_age_with_exception] at h
  split at h
  · exact absurd h (by simp)
  · rename_i hg
    simp only [Bool.or_eq_true, decide_eq_true_eq, not_or] at hg
    omega

theorem calculate_age_spec (cfg : ValidationConfig) (name : List Char)
    (a y m d : Int) (ha : 0 ≤ a) (hm1 : 1 ≤ m) (hm2 : m ≤ 12)
    (hn : validate_name_with_exception cfg name = .ok ())
    (hv : validate_age_with_exception cfg a = .ok ()) :
    calculate_age cfg name a y m d = .ok {
      name := some ⟨name, validate_name_ok_strip hn⟩
      age_years := some ⟨a, ha⟩
      age_months := some ⟨a * 12 + m⟩
      age_days := some ⟨specTotalDays a y m d⟩
      age_weeks := some ⟨Int.fdiv (specTotalDays a y m d) 7⟩
      age_hours := some ⟨specTotalDays a y m d * 24⟩
      age_minutes := some ⟨specTotalDays a y m d * 24 * 60⟩
      birth_year := some (y - a)
      current_year := some y } := by
  simp only [calculate_age, hn, hv, liftVE, calculate_total_days_ok a y m d ha hm1 hm2,
    Except.mapError, except_bind_ok, mkPersonName, mkAge, validate_name_ok_strip hn,
    dif_pos, dite_eq_ite, if_pos]
  rw [dif_neg (by omega : ¬ a < 0)]
  rfl


/-- C5: For every integer year `y` (including years at or below 0, on which
these total functions cannot fail), `is_leap_year y` is true iff `y` is
divisible by 4 and (not divisible by 100 or divisible by 400), and
`get_days_in_year y` is 366 iff `is_leap_year y`, otherwise 365. -/
theorem C5_leap_year_rule (y : Int) :
    (is_leap_year y = true ↔ (y % 4 = 0 ∧ (y % 100 ≠ 0 ∨ y % 400 = 0))) ∧
    (get_days_in_year y = 366 ↔ is_leap_year y = true) ∧
    (get_days_in_year y = 365 ↔ is_leap_year y = false) := by
  refine ⟨?_, ?_, ?_⟩
  · simp [is_leap_year]
  · unfold get_days_in_year
    split <;> rename_i h <;> simp [h]
  · unfold get_days_in_year
    split <;> rename_i h <;> simp [h]

/-- C6: For months 1..12 `get_days_in_month` returns the fixed table value
(February 29 under the leap flag, 28 otherwise), `get_days_up_to_month`
returns the sum of the table entries of the preceding months (so 0 for
January, 60 for March in a leap year, 59 otherwise), and both operations
report an invalid-month error exactly when the month lies outside [1, 12]. -/
theorem C6_month_table :
    (∀ leap : Bool,
      get_days_in_month 1 leap = .ok 31 ∧
      get_days_in_month 2 true = .ok 29 ∧
      get_days_in_month 2 false = .ok 28 ∧
      get_days_in_month 3 leap = .ok 31 ∧
      get_days_in_month 4 leap = .ok 30 ∧
      get_days_in_month 5 leap = .ok 31 ∧
      get_days_in_month 6 leap = .ok 30 ∧
      get_days_in_month 7 leap = .ok 31 ∧
      get_days_in_month 8 leap = .ok 31 ∧
      get_days_in_month 9 leap = .ok 30 ∧
      get_days_in_month 10 leap = .ok 31 ∧
      get_days_in_month 11 leap = .ok 30 ∧
      get_days_in_month 12 leap = .ok 31) ∧
    (∀ (m : Int) (leap : Bool), 1 ≤ m → m ≤ 12 →
      get_days_up_to_month m leap = .ok (specMonthPrefix m leap)) ∧
    (∀ leap : Bool, get_days_up_to_month 1 leap = .ok 0) ∧
    get_days_up_to_month 3 true = .ok 60 ∧
    get_days_up_to_month 3 false = .ok 59 ∧
    (∀ (m : Int) (leap : Bool),
      isError (get_days_in_month m leap) = true ↔ (m < 1 ∨ 12 < m)) ∧
    (∀ (m : Int) (leap : Bool),
      isError (get_days_up_to_month m leap) = true ↔ (m < 1 ∨ 12 < m)) := by
  refine ⟨?_, ?_, ?_, rfl, rfl, ?_, ?_⟩
  · intro leap
    cases leap <;>
      exact ⟨rfl, rfl, rfl, rfl, rfl, rfl, rfl, rfl, rfl, rfl, rfl, rfl, rfl⟩
  · intro m leap h1 h2
    interval_cases m <;> cases leap <;> rfl
  · intro leap
    cases leap <;> rfl
  · intro m leap
    simp only [get_days_in_month]
    split
    · rename_i hg
      simp only [Bool.or_eq_true, decide_eq_true_eq] at hg
      simp only [isError, true_iff]
      omega
    · rename_i hg
      simp only [Bool.or_eq_true, decide_eq_true_eq, not_or] at hg
      simp only [isError, Bool.false_eq_true, false_iff]
      omega
  · intro m leap
    simp only [get_days_up_to_month]
    split
    · rename_i hg
      simp only [Bool.or_eq_true, decide_eq_true_eq] at hg
      simp only [isError, true_iff]
      omega
    · rename_i hg
      simp only [Bool.or_eq_true, decide_eq_true_eq, not_or] at hg
      simp only [isError, Bool.false_eq_true, false_iff]
      omega

/-- Witness for C6 at month 3. -/
theorem C6_month_table_witness :
    get_days_up_to_month 3 true = .ok (specMonthPrefix 3 true) ∧
    specMonthPrefix 3 true = 60 :=
  ⟨C6_month_table.2.1 3 true (by decide) (by decide), by decide⟩

/-- C1: For every non-negative age and every current date whose month lies in
[1, 12], the engine total day count is the spec-side sum `specTotalDays`
(full years from the birth year through the previous year, plus the
cumulative days before the current month under the current year leap flag,
plus the day of month), `calculate_days_lived` and `calculate_months_lived`
apply the same day and month formulas, and for every validated (config,
name) pair `calculate_age` returns exactly months = age times 12 plus
current month, weeks = floor division of the day total by 7, hours = day
total times 24, minutes = hours times 60. -/
theorem C1_engine_day_count (a y m d : Int) (ha : 0 ≤ a)
    (hm1 : 1 ≤ m) (hm2 : m ≤ 12) :
    calculate_total_days a y m d = .ok (specTotalDays a y m d) ∧
    calculate_days_lived a y m d = .ok (specTotalDays a y m d) ∧
    calculate_months_lived a m = a * 12 + m ∧
    (∀ (cfg : ValidationConfig) (name : List Char),
      validate_name_with_exception cfg name = .ok () →
      validate_age_with_exception cfg a = .ok () →
      ∃ r, calculate_age cfg name a y m d = .ok r ∧
        r.age_days = some ⟨specTotalDays a y m d⟩ ∧
        r.age_months = some ⟨a * 12 + m⟩ ∧
        r.age_weeks = some ⟨Int.fdiv (specTotalDays a y m d) 7⟩ ∧
        r.age_hours = some ⟨specTotalDays a y m d * 24⟩ ∧
        r.age_minutes = some ⟨specTotalDays a y m d * 24 * 60⟩ ∧
        r.birth_year = some (y - a) ∧
        r.current_year = some y) := by
  refine ⟨calculate_total_days_ok a y m d ha hm1 hm2,
    calculate_total_days_ok a y m d ha hm1 hm2, rfl, ?_⟩
  intro cfg name hn hv
  exact ⟨_, calculate_age_spec cfg name a y m d ha hm1 hm2 hn hv,
    rfl, rfl, rfl, rfl, rfl, rfl, rfl⟩

/-- Witness for C1: the spec scenario, 2024-03-15 with age 30. -/
theorem C1_engine_day_count_witness :
    calculate_total_days 30 2024 3 15 = .ok (specTotalDays 30 2024 3 15) ∧
    specTotalDays 30 2024 3 15 = 11032 :=
  ⟨(C1_engine_day_count 30 2024 3 15 (by decide) (by decide) (by decide)).1,
   by decide⟩


theorem except_throw {ε α : Type} (e : ε) : (throw e : Except ε α) = Except.error e := rfl

theorem stripNonempty_not_empty {s : List Char} (h : stripNonempty s = true) :
    s.isEmpty = false := by
  cases s with
  | nil => simp [stripNonempty] at h
  | cons c t => rfl

/-- C8: For a fixed current date whose month lies in [1, 12], the total days
lived is strictly increasing in the age: one more year of age adds the days
of one more calendar year. -/
theorem C8_days_lived_monotone (a y m d : Int) (ha : 0 ≤ a)
    (hm1 : 1 ≤ m) (hm2 : m ≤ 12) :
    ∃ D1 D2, calculate_days_lived a y m d = .ok D1 ∧
      calculate_days_lived (a + 1) y m d = .ok D2 ∧ D1 < D2 := by
  refine ⟨specTotalDays a y m d, specTotalDays (a + 1) y m d,
    calculate_total_days_ok a y m d ha hm1 hm2,
    calculate_total_days_ok (a + 1) y m d (by omega) hm1 hm2, ?_⟩
  unfold specTotalDays
  have hsplit : specYearSpan (y - (a + 1)) (y - 1) =
      get_days_in_year (y - (a + 1)) + specYearSpan (y - (a + 1) + 1) (y - 1) :=
    specYearSpan_cons _ _ (by omega)
  have heq : y - (a + 1) + 1 = y - a := by ring
  rw [heq] at hsplit
  have hge := get_days_in_year_ge (y - (a + 1))
  omega

/-- Witness for C8 at age 30 on 2024-03-15. -/
theorem C8_days_lived_monotone_witness :
    ∃ D1 D2, calculate_days_lived 30 2024 3 15 = .ok D1 ∧
      calculate_days_lived (30 + 1) 2024 3 15 = .ok D2 ∧ D1 < D2 :=
  C8_days_lived_monotone 30 2024 3 15 (by decide) (by decide) (by decide)

/-- C3 counterexample: under `negMinConfig` both range invariants hold and the
pair (Ada, -3) passes both validations, yet `calculate_age` fails: the `Age`
value object rejects the negative years. So validation passing does not make
the rest of the calculation failure-free for every min-max-ordered
configuration. -/
theorem C3_counterexample :
    negMinConfig.min_age ≤ negMinConfig.max_age ∧
    negMinConfig.min_name_length ≤ negMinConfig.max_name_length ∧
    validate_name_with_exception negMinConfig ("Ada".toList) = .ok () ∧
    validate_age_with_exception negMinConfig (-3) = .ok () ∧
    calculate_age negMinConfig ("Ada".toList) (-3) 2024 3 15 =
      .error (.valueError "Age cannot be negative") :=
  ⟨by decide, by decide, rfl, rfl, rfl⟩

/-- C3 amended: for every validation configuration whose ranges are ordered
and whose minimum age is non-negative (the default configuration satisfies
this), once the name and age validations pass, `calculate_age` succeeds for
every date the date source reports (month in [1, 12]). -/
theorem C3_amended_no_failure (cfg : ValidationConfig) (name : List Char)
    (a y m d : Int)
    (_hra : cfg.min_age ≤ cfg.max_age)
    (_hrn : cfg.min_name_length ≤ cfg.max_name_length)
    (hmin : 0 ≤ cfg.min_age) (hm1 : 1 ≤ m) (hm2 : m ≤ 12)
    (hn : validate_name_with_exception cfg name = .ok ())
    (hv : validate_age_with_exception cfg a = .ok ()) :
    ∃ r, calculate_age cfg name a y m d = .ok r := by
  have hb := validate_age_ok_bounds hv
  exact ⟨_, calculate_age_spec cfg name a y m d (by omega) hm1 hm2 hn hv⟩

/-- Witness for C3 amended at the default configuration. -/
theorem C3_amended_no_failure_witness :
    ∃ r, calculate_age defaultValidationConfig ("Ada".toList) 30 2024 3 15 = .ok r :=
  C3_amended_no_failure defaultValidationConfig ("Ada".toList) 30 2024 3 15
    (by decide) (by decide) (by decide) (by decide) (by decide) rfl rfl

/-- C4: validation failures escape `calculate_age` before any calendar
arithmetic and never yield a result: a name failure propagates as that
`NameValidationError` and an age failure (name accepted) as that
`AgeValidationError`, for arbitrary date triples; with the default bounds
0-150, ages -1 and 151 produce an `AgeValidationError` carrying the value and
both bounds; an empty or whitespace-only name yields reason `empty_value`, a
too-short name `too_short`, and a too-long name `too_long`. -/
theorem C4_validation_errors :
    (∀ (cfg : ValidationConfig) (name : List Char) (a y m d : Int)
        (e : NameValidationError),
      validate_name_with_exception cfg name = .error e →
      calculate_age cfg name a y m d = .error (.nameError e)) ∧
    (∀ (cfg : ValidationConfig) (name : List Char) (a y m d : Int)
        (e : AgeValidationError),
      validate_name_with_exception cfg name = .ok () →
      validate_age_with_exception cfg a = .error e →
      calculate_age cfg name a y m d = .error (.ageError e)) ∧
    validate_age_with_exception defaultValidationConfig (-1) =
      .error ⟨-1, 0, 150⟩ ∧
    validate_age_with_exception defaultValidationConfig 151 =
      .error ⟨151, 0, 150⟩ ∧
    (∀ (cfg : ValidationConfig) (name : List Char),
      stripNonempty name = false →
      validate_name_with_exception cfg name = .error ⟨name, .empty_value⟩) ∧
    (∀ (cfg : ValidationConfig) (name : List Char),
      stripNonempty name = true →
      (name.length : Int) < cfg.min_name_length →
      validate_name_with_exception cfg name = .error ⟨name, .too_short⟩) ∧
    (∀ (cfg : ValidationConfig) (name : List Char),
      stripNonempty name = true →
      cfg.min_name_length ≤ (name.length : Int) →
      cfg.max_name_length < (name.length : Int) →
      validate_name_with_exception cfg name = .error ⟨name, .too_long⟩) := by
  refine ⟨?_, ?_, rfl, rfl, ?_, ?_, ?_⟩
  · intro cfg name a y m d e h
    simp [calculate_age, h, except_throw, except_bind_err]
  · intro cfg name a y m d e hn h
    simp [calculate_age, hn, h, except_throw, except_bind_err, except_bind_ok]
  · intro cfg name h
    unfold validate_name_with_exception
    rw [if_pos (by simp [h])]
  · intro cfg name h hlen
    have hne := stripNonempty_not_empty h
    unfold validate_name_with_exception
    rw [if_neg (by simp [hne, h]), if_pos hlen]
  · intro cfg name h hminle hmaxlt
    have hne := stripNonempty_not_empty h
    unfold validate_name_with_exception
    rw [if_neg (by simp [hne, h]), if_neg (by omega), if_pos (by omega)]

/-- Witness for C4: the empty name and the default-bounds age -1. -/
theorem C4_validation_errors_witness :
    calculate_age defaultValidationConfig [] 5 2024 3 15 =
      .error (.nameError ⟨[], .empty_value⟩) ∧
    calculate_age defaultValidationConfig ("Ada".toList) (-1) 2024 3 15 =
      .error (.ageError ⟨-1, 0, 150⟩) :=
  ⟨C4_validation_errors.1 defaultValidationConfig [] 5 2024 3 15
      ⟨[], .empty_value⟩ rfl,
   C4_validation_errors.2.1 defaultValidationConfig ("Ada".toList) (-1) 2024 3 15
      ⟨-1, 0, 150⟩ rfl rfl⟩


/-- C7: `validate_name` accepts exactly the names that are non-empty after
trimming whitespace, whose (untrimmed) length lies within the configured
bounds, and, under strict mode, all of whose characters belong to the
configured allowed set. -/
theorem C7_validate_name_iff (cfg : ValidationConfig) (name : List Char) :
    validate_name cfg name = true ↔
      (stripNonempty name = true ∧
       cfg.min_name_length ≤ (name.length : Int) ∧
       (name.length : Int) ≤ cfg.max_name_length ∧
       (cfg.strict_name_validation = true →
         ∀ c ∈ name, cfg.allowed_name_characters.contains c = true)) := by
  unfold validate_name
  split_ifs with h1 h2 h3 h4
  · simp only [Bool.false_eq_true, false_iff, not_and]
    intro hs
    simp only [Bool.or_eq_true, Bool.not_eq_true'] at h1
    rcases h1 with he | he
    · rw [stripNonempty_not_empty hs] at he
      simp at he
    · rw [hs] at he
      simp at he
  · simp only [Bool.false_eq_true, false_iff, not_and]
    intro _
    omega
  · simp only [Bool.false_eq_true, false_iff, not_and]
    intro _
    intro h
    omega
  · simp only [Bool.or_eq_true, Bool.not_eq_true', not_or] at h1
    simp only [List.all_eq_true, h4, forall_const]
    constructor
    · intro hall
      exact ⟨by simpa using h1.2, by omega, by omega, hall⟩
    · intro hc
      exact hc.2.2.2
  · simp only [Bool.or_eq_true, Bool.not_eq_true', not_or] at h1
    simp only [true_iff]
    refine ⟨by simpa using h1.2, by omega, by omega, ?_⟩
    intro hs
    rw [hs] at h4
    simp at h4

/-- C9 counterexample: a request whose name is the single space (whitespace
only, hence empty after trimming) with age 0 is nevertheless accepted by
`CalculationRequest.validate`, because the code checks `bool(self.name)`
without trimming. -/
theorem C9_counterexample :
    CalculationRequest.validate { name := [' '], age_in_years := 0 } = true ∧
    stripNonempty [' '] = false := by
  exact ⟨rfl, rfl⟩

/-- C9 amended: `CalculationRequest.validate` returns true iff the name is
non-empty as written (no whitespace trimming) and the age in years is
non-negative. -/
theorem C9_validate_iff (r : CalculationRequest) :
    r.validate = true ↔ (r.name ≠ [] ∧ 0 ≤ r.age_in_years) := by
  unfold CalculationRequest.validate
  simp only [Bool.and_eq_true, Bool.not_eq_true', List.isEmpty_eq_false,
    decide_eq_true_eq, ne_eq]

/-- Witness for C9 amended. -/
theorem C9_validate_iff_witness :
    CalculationRequest.validate { name := [' '], age_in_years := 0 } = true :=
  (C9_validate_iff { name := [' '], age_in_years := 0 }).mpr
    ⟨by decide, by decide⟩

/-- C10: building a `PersonName` fails exactly on empty or whitespace-only
values and building an `Age` fails exactly on negative years; consequently
every `AgeCalculationResult` with a present name holds a name that is
non-empty after trimming, and one with a present age holds a non-negative
age, however the result was built. -/
theorem C10_value_object_invariants :
    (∀ s : List Char, isError (mkPersonName s) = true ↔ stripNonempty s = false) ∧
    (∀ yv : Int, isError (mkAge yv) = true ↔ yv < 0) ∧
    (∀ (r : AgeCalculationResult) (p : PersonName), r.name = some p →
      stripNonempty p.value = true) ∧
    (∀ (r : AgeCalculationResult) (ag : Age), r.age_years = some ag →
      0 ≤ ag.years) := by
  refine ⟨?_, ?_, ?_, ?_⟩
  · intro s
    unfold mkPersonName
    split <;> rename_i h <;> simp [isError, h]
  · intro yv
    unfold mkAge
    split <;> rename_i h <;> simp [isError, h]
  · intro r p _
    exact p.valid
  · intro r ag _
    exact ag.valid

/-- Witness for C10 on concrete values. -/
theorem C10_value_object_invariants_witness :
    isError (mkPersonName [' ']) = true ∧
    isError (mkAge (-1)) = true ∧
    stripNonempty ['A'] = true ∧
    (0 : Int) ≤ 5 := by
  refine ⟨?_, ?_, ?_, ?_⟩
  · exact (C10_value_object_invariants.1 [' ']).mpr (by decide)
  · exact (C10_value_object_invariants.2.1 (-1)).mpr (by decide)
  · exact C10_value_object_invariants.2.2.1
      { name := some ⟨['A'], by decide⟩ } ⟨['A'], by decide⟩ rfl
  · exact C10_value_object_invariants.2.2.2
      { age_years := some ⟨5, by omega⟩ } ⟨5, by omega⟩ rfl


theorem fdiv_seven_ge_one {D : Int} (h : 7 ≤ D) : 1 ≤ Int.fdiv D 7 := by
  rw [Int.fdiv_eq_ediv _ (by omega : (0 : Int) ≤ 7)]
  rw [Int.le_ediv_iff_mul_le (by omega : (0 : Int) < 7)]
  omega

/-- C2 counterexample: the engine result for (Ada, age 0) on 2024-01-03
carries the numeric field age_years with value 0, but serializing to the flat
record and deserializing returns the field absent: the deserializer tests
Python truthiness and 0 is falsy, so the round trip does not reproduce every
numeric field. -/
theorem C2_counterexample :
    (calculate_age defaultValidationConfig ("Ada".toList) 0 2024 1 3).map
      (fun r => r.age_years.map (fun ag => ag.years)) = .ok (some 0) ∧
    ((calculate_age defaultValidationConfig ("Ada".toList) 0 2024 1 3).bind
      (fun r => (dict_to_result (to_dict r)).mapError CalcError.valueError)).map
      (fun r => r.age_years.map (fun ag => ag.years)) = .ok none :=
  ⟨rfl, rfl⟩

/-- C2 amended: for every engine-produced result whose age is at least 1 (so
every serialized numeric value is non-zero) on a date with month in [1, 12]
and day at least 1, serializing to the flat record and deserializing
reproduces the whole result, every numeric field included. -/
theorem C2_roundtrip_amended (cfg : ValidationConfig) (name : List Char)
    (a y m d : Int) (ha : 1 ≤ a) (hm1 : 1 ≤ m) (hm2 : m ≤ 12) (hd : 1 ≤ d)
    (hn : validate_name_with_exception cfg name = .ok ())
    (hv : validate_age_with_exception cfg a = .ok ()) :
    ∃ r, calculate_age cfg name a y m d = .ok r ∧
      dict_to_result (to_dict r) = .ok r := by
  refine ⟨_, calculate_age_spec cfg name a y m d (by omega) hm1 hm2 hn hv, ?_⟩
  have hstrip := validate_name_ok_strip hn
  have hne := stripNonempty_not_empty hstrip
  have hD : 7 ≤ specTotalDays a y m d := by
    unfold specTotalDays
    have h1 := specYearSpan_ge (y - a) (y - 1) (by omega)
    have h2 := specMonthPrefix_nonneg m (is_leap_year y)
    omega
  have hW := fdiv_seven_ge_one hD
  have hM : a * 12 + m ≠ 0 := by omega
  have hDne : specTotalDays a y m d ≠ 0 := by omega
  have hWne : Int.fdiv (specTotalDays a y m d) 7 ≠ 0 := by omega
  have hH : specTotalDays a y m d * 24 ≠ 0 := by omega
  have hMin : specTotalDays a y m d * 24 * 60 ≠ 0 := by omega
  have hAne : a ≠ 0 := by omega
  have hAneg : ¬ a < 0 := by omega
  simp [to_dict, dict_to_result, truthyStr, truthyInt, mkPersonName, mkAge,
    hne, hstrip, hM, hDne, hWne, hH, hMin, hAne, hAneg]
  rfl


/-- Witness for C2 amended at the spec scenario (Ada, 30, 2024-03-15). -/
theorem C2_roundtrip_amended_witness :
    ∃ r, calculate_age defaultValidationConfig ("Ada".toList) 30 2024 3 15 = .ok r ∧
      dict_to_result (to_dict r) = .ok r :=
  C2_roundtrip_amended defaultValidationConfig ("Ada".toList) 30 2024 3 15
    (by decide) (by decide) (by decide) (by decide) rfl rfl


/-- Witness for C7 at the default configuration. -/
theorem C7_validate_name_iff_witness :
    validate_name defaultValidationConfig ("Ada".toList) = true :=
  (C7_validate_name_iff defaultValidationConfig ("Ada".toList)).mpr
    ⟨by decide, by decide, by decide, by decide⟩

end AgeCalc
